/-
Verification of the BTC/Altcoin strategy analyzer
(`analyze_btc_altcoin_strategy.py`).

Shallow embedding conventions:
* Python floats are modelled as rationals (ℚ); the claims at stake concern
  comparison structure and exact table values, not rounding.
* `datetime` timestamps are modelled as POSIX seconds (ℚ); the code only
  ever subtracts two timestamps and compares `total_seconds()` with a bound.
* A `raise ValueError(...)` is modelled as `Except.error` carrying an `Err`
  value; Python's `ZeroDivisionError` (no guard in the source) is a third
  error constructor.
* Python `Enum` members of distinct classes (`Trend` vs `HWC`) are never
  equal under `==`; the embedding keeps the two types distinct and models
  the cross-class comparison explicitly as the constantly-false predicate.
-/

import Mathlib

set_option maxRecDepth 4096

/-- `Trend` enum of the source: classification of short-horizon series. -/
inductive Trend where
  | BULLISH
  | BEARISH
  | NEUTRAL
deriving DecidableEq, Repr, Fintype

/-- `HWC` enum of the source: classification of the weekly candle series.
Structurally identical to `Trend` but a distinct Python class. -/
inductive HWC where
  | BULLISH
  | BEARISH
  | NEUTRAL
deriving DecidableEq, Repr, Fintype

/-- Error taxonomy of the embedding. `incompleteData` and
`timestampDiscontinuity` model the two `ValueError` kinds the source raises
(`INCOMPLETE_DATA`, `TIMESTAMP_DISCONTINUITY`, the latter carrying the gap in
seconds that the source interpolates into its message); `zeroDivisionError`
models Python's unguarded division by zero. -/
inductive Err where
  | incompleteData
  | timestampDiscontinuity (gapSeconds : ℚ)
  | zeroDivisionError
deriving DecidableEq, Repr

deriving instance DecidableEq for Except

/-- One parsed data point `(timestamp, open, close)` as produced by
`parse_btc_data` / `parse_btc_dominance`: timestamp in POSIX seconds,
open and close prices (or dominance percentages). -/
structure DataPoint where
  ts : ℚ
  openP : ℚ
  closeP : ℚ
deriving DecidableEq, Repr

/-- Junk default used only behind length guards (Python indexing never
reaches it there). -/
def dp0 : DataPoint := ⟨0, 0, 0⟩

/-- The source's `DECISION_MATRIX` dict, verbatim: all 27
`(Trend, Trend, HWC)` keys in source order with their recommendation
strings. -/
def DECISION_MATRIX : List ((Trend × Trend × HWC) × String) := [
  ((Trend.BULLISH, Trend.BULLISH, HWC.BULLISH), "Strong BTC buy (Low risk)"),
  ((Trend.BULLISH, Trend.BULLISH, HWC.NEUTRAL), "Moderate BTC buy (Medium risk)"),
  ((Trend.BULLISH, Trend.BULLISH, HWC.BEARISH), "Avoid BTC (High risk)"),
  ((Trend.BULLISH, Trend.BEARISH, HWC.BULLISH), "Risky altcoin buy (Requires confirmation)"),
  ((Trend.BULLISH, Trend.BEARISH, HWC.NEUTRAL), "Altcoin accumulation (Medium risk)"),
  ((Trend.BULLISH, Trend.BEARISH, HWC.BEARISH), "Altcoin sell (High risk)"),
  ((Trend.BULLISH, Trend.NEUTRAL, HWC.BULLISH), "Strong BTC buy (Medium risk)"),
  ((Trend.BULLISH, Trend.NEUTRAL, HWC.NEUTRAL), "BTC accumulation (Medium risk)"),
  ((Trend.BULLISH, Trend.NEUTRAL, HWC.BEARISH), "BTC sell (High risk)"),
  ((Trend.BEARISH, Trend.BULLISH, HWC.BULLISH), "BTC short (Medium risk)"),
  ((Trend.BEARISH, Trend.BULLISH, HWC.NEUTRAL), "BTC short (Low risk)"),
  ((Trend.BEARISH, Trend.BULLISH, HWC.BEARISH), "Strong BTC short (High risk)"),
  ((Trend.BEARISH, Trend.BEARISH, HWC.BULLISH), "Altcoin buy (Low risk)"),
  ((Trend.BEARISH, Trend.BEARISH, HWC.NEUTRAL), "Altcoin accumulation (Low risk)"),
  ((Trend.BEARISH, Trend.BEARISH, HWC.BEARISH), "Strong altcoin buy (Medium risk)"),
  ((Trend.BEARISH, Trend.NEUTRAL, HWC.BULLISH), "BTC short (High risk)"),
  ((Trend.BEARISH, Trend.NEUTRAL, HWC.NEUTRAL), "Market neutral (Low risk)"),
  ((Trend.BEARISH, Trend.NEUTRAL, HWC.BEARISH), "Altcoin buy (Medium risk)"),
  ((Trend.NEUTRAL, Trend.BULLISH, HWC.BULLISH), "BTC accumulation (Low risk)"),
  ((Trend.NEUTRAL, Trend.BULLISH, HWC.NEUTRAL), "Market watch (Low risk)"),
  ((Trend.NEUTRAL, Trend.BULLISH, HWC.BEARISH), "Altcoin sell (Medium risk)"),
  ((Trend.NEUTRAL, Trend.BEARISH, HWC.BULLISH), "Altcoin accumulation (Low risk)"),
  ((Trend.NEUTRAL, Trend.BEARISH, HWC.NEUTRAL), "Market watch (Low risk)"),
  ((Trend.NEUTRAL, Trend.BEARISH, HWC.BEARISH), "BTC buy (Medium risk)"),
  ((Trend.NEUTRAL, Trend.NEUTRAL, HWC.BULLISH), "Market indecisive (Low risk)"),
  ((Trend.NEUTRAL, Trend.NEUTRAL, HWC.NEUTRAL), "MARKET_INDECISIVE"),
  ((Trend.NEUTRAL, Trend.NEUTRAL, HWC.BEARISH), "Market indecisive (Low risk)")]

/-- `validate_timestamp_continuity(data, max_gap_hours)`: walk consecutive
pairs; fail on the first pair whose gap `data[i][0] - data[i-1][0]` exceeds
`max_gap_hours * 3600` seconds. The source's early `return` on `len < 2` is
the base cases here. -/
def validate_timestamp_continuity : List DataPoint → ℚ → Except Err Unit
  | [], _ => Except.ok ()
  | [_], _ => Except.ok ()
  | p :: q :: rest, maxGapHours =>
    let timeDiff := q.ts - p.ts
    if timeDiff > maxGapHours * 3600 then
      Except.error (Err.timestampDiscontinuity timeDiff)
    else
      validate_timestamp_continuity (q :: rest) maxGapHours

/-- `calculate_trend(data, bullish_threshold, bearish_threshold)`:
short-window mode. `data[-7][1]` (7th-from-last open) vs `data[-1][2]`
(last close); strict threshold comparisons. The defaults in the source are
`0.5` and `-0.5`. Python raises `ZeroDivisionError` when the reference open
is zero; the embedding surfaces that as `Err.zeroDivisionError`. -/
def calculate_trend (data : List DataPoint) (bullish_threshold bearish_threshold : ℚ) :
    Except Err (Trend × ℚ) :=
  if data.length < 7 then Except.error Err.incompleteData
  else
    let first_open := (data.getD (data.length - 7) dp0).openP
    let last_close := (data.getD (data.length - 1) dp0).closeP
    if first_open = 0 then Except.error Err.zeroDivisionError
    else
      let percentage_change := (last_close - first_open) / first_open * 100
      if percentage_change > bullish_threshold then Except.ok (Trend.BULLISH, percentage_change)
      else if percentage_change < bearish_threshold then Except.ok (Trend.BEARISH, percentage_change)
      else Except.ok (Trend.NEUTRAL, percentage_change)

/-- `calculate_hwc_trend(data, bullish_threshold, bearish_threshold)`:
full-window mode. `data[0][1]` (first open) vs `data[-1][2]` (last close).
The defaults in the source are `2.0` and `-2.0`. -/
def calculate_hwc_trend (data : List DataPoint) (bullish_threshold bearish_threshold : ℚ) :
    Except Err (HWC × ℚ) :=
  if data.length < 7 then Except.error Err.incompleteData
  else
    let first_open := (data.getD 0 dp0).openP
    let last_close := (data.getD (data.length - 1) dp0).closeP
    if first_open = 0 then Except.error Err.zeroDivisionError
    else
      let percentage_change := (last_close - first_open) / first_open * 100
      if percentage_change > bullish_threshold then Except.ok (HWC.BULLISH, percentage_change)
      else if percentage_change < bearish_threshold then Except.ok (HWC.BEARISH, percentage_change)
      else Except.ok (HWC.NEUTRAL, percentage_change)

/-- Python `==` between a `Trend` member and an `HWC` member: members of
distinct `Enum` classes are never equal, so the comparison is constantly
`False`. `get_confidence_score` relies on this comparison. -/
def pyEqTrendHWC (_ : Trend) (_ : HWC) : Bool := false

/-- `get_confidence_score(btc_trend, btc_d_trend, hwc_status)`, with the
source's cross-class `==` comparisons made explicit via `pyEqTrendHWC`:
`btc_trend == btc_d_trend == hwc_status` is the chained
`(btc_trend == btc_d_trend) and (btc_d_trend == hwc_status)`. -/
def get_confidence_score (btc_trend btc_d_trend : Trend) (hwc_status : HWC) : Int :=
  let confidence : Int := 65
  let confidence :=
    if btc_trend = btc_d_trend ∧ pyEqTrendHWC btc_d_trend hwc_status then confidence + 20
    else if btc_trend = btc_d_trend ∨ pyEqTrendHWC btc_trend hwc_status
        ∨ pyEqTrendHWC btc_d_trend hwc_status then confidence + 10
    else confidence
  let confidence :=
    if btc_trend = Trend.NEUTRAL ∨ btc_d_trend = Trend.NEUTRAL ∨ hwc_status = HWC.NEUTRAL then
      confidence - 15
    else confidence
  max 50 (min 95 confidence)

/-- The reference open of short-window mode: `data[-7][1]`. -/
def refOpenShort (data : List DataPoint) : ℚ := (data.getD (data.length - 7) dp0).openP

/-- The reference open of full-window mode: `data[0][1]`. -/
def refOpenFull (data : List DataPoint) : ℚ := (data.getD 0 dp0).openP

/-- The last close: `data[-1][2]`. -/
def lastClose (data : List DataPoint) : ℚ := (data.getD (data.length - 1) dp0).closeP

/-- Short-window percent change as computed by `calculate_trend`. -/
def pcShort (data : List DataPoint) : ℚ :=
  (lastClose data - refOpenShort data) / refOpenShort data * 100

/-- Full-window percent change as computed by `calculate_hwc_trend`. -/
def pcFull (data : List DataPoint) : ℚ :=
  (lastClose data - refOpenFull data) / refOpenFull data * 100

/-- Consecutive timestamp differences `data[i][0] - data[i-1][0]`, in
order. -/
def gaps : List DataPoint → List ℚ
  | p :: q :: rest => (q.ts - p.ts) :: gaps (q :: rest)
  | _ => []

/-- Specification-side restatement of the Continuity Validator for the
refinement proof: fail with the FIRST consecutive gap exceeding the
ceiling (in hours), else pass. -/
def validate_spec (data : List DataPoint) (maxGapHours : ℚ) : Except Err Unit :=
  match (gaps data).find? (fun g => decide (maxGapHours * 3600 < g)) with
  | some g => Except.error (Err.timestampDiscontinuity g)
  | none => Except.ok ()

/-- The spec's error taxonomy restricted to the validator/classifier layer:
`IncompleteData` and `TimestampDiscontinuity` (the fetch layer's
`ExecutionFailure` and the matrix's `DecisionLookupMiss` never reach these
functions). -/
def specErrorTaxonomy (e : Err) : Prop :=
  e = Err.incompleteData ∨ ∃ g, e = Err.timestampDiscontinuity g

instance (e : Err) : Decidable (specErrorTaxonomy e) := by
  unfold specErrorTaxonomy
  cases e with
  | incompleteData => exact isTrue (Or.inl rfl)
  | timestampDiscontinuity g => exact isTrue (Or.inr ⟨g, rfl⟩)
  | zeroDivisionError =>
    exact isFalse (by rintro (h | ⟨g, h⟩) <;> exact Err.noConfusion h)

-- Sample data of the source's `test_analyzer`, which is also the spec's
-- literal end-to-end scenario. Timestamps are POSIX seconds:
-- 2025-08-29T12:00:00Z = 1756468800, hourly steps of 3600;
-- 2025-08-22T12:00:00Z = 1755864000, daily steps of 86400.

/-- `sample_btc_daily` of `test_analyzer`: eight hourly OHLC points, open
50000.0 rising linearly to close 50800.0 (only timestamp/open/close are
parsed). -/
def sample_btc_daily : List DataPoint := [
  ⟨1756468800, 50000, 50100⟩,
  ⟨1756472400, 50100, 50200⟩,
  ⟨1756476000, 50200, 50300⟩,
  ⟨1756479600, 50300, 50400⟩,
  ⟨1756483200, 50400, 50500⟩,
  ⟨1756486800, 50500, 50600⟩,
  ⟨1756490400, 50600, 50700⟩,
  ⟨1756494000, 50700, 50800⟩]

/-- `sample_btc_dominance` of `test_analyzer`: eight hourly dominance
points rising from 48.5% to 50.5%. -/
def sample_btc_dominance : List DataPoint := [
  ⟨1756468800, (485 : ℚ)/10, (488 : ℚ)/10⟩,
  ⟨1756472400, (488 : ℚ)/10, (490 : ℚ)/10⟩,
  ⟨1756476000, (490 : ℚ)/10, (493 : ℚ)/10⟩,
  ⟨1756479600, (493 : ℚ)/10, (496 : ℚ)/10⟩,
  ⟨1756483200, (496 : ℚ)/10, (498 : ℚ)/10⟩,
  ⟨1756486800, (498 : ℚ)/10, (500 : ℚ)/10⟩,
  ⟨1756490400, (500 : ℚ)/10, (503 : ℚ)/10⟩,
  ⟨1756494000, (503 : ℚ)/10, (505 : ℚ)/10⟩]

/-- `sample_btc_weekly` of `test_analyzer`: eight points at 24-hour spacing,
open 48000.0 rising to close 48800.0. -/
def sample_btc_weekly : List DataPoint := [
  ⟨1755864000, 48000, 48100⟩,
  ⟨1755950400, 48100, 48200⟩,
  ⟨1756036800, 48200, 48300⟩,
  ⟨1756123200, 48300, 48400⟩,
  ⟨1756209600, 48400, 48500⟩,
  ⟨1756296000, 48500, 48600⟩,
  ⟨1756382400, 48600, 48700⟩,
  ⟨1756468800, 48700, 48800⟩]

/-- A short series used below to exhibit behaviour on fewer than 7 points:
three hourly points. -/
def shortSeries : List DataPoint := [⟨0, 10, 11⟩, ⟨3600, 11, 12⟩, ⟨7200, 12, 13⟩]

/-- A 7-point hourly series whose short-window percent change is exactly 0
(reference open 100, last close 100): used to probe threshold boundaries. -/
def flatSeries : List DataPoint := [
  ⟨0, 100, 100⟩,
  ⟨3600, 100, 100⟩,
  ⟨7200, 100, 100⟩,
  ⟨10800, 100, 100⟩,
  ⟨14400, 100, 100⟩,
  ⟨18000, 100, 100⟩,
  ⟨21600, 100, 100⟩]

/-- A 7-point series whose reference open (both modes) is `0.0`: Python
raises `ZeroDivisionError` on it. -/
def zeroOpenSeries : List DataPoint := [
  ⟨0, 0, 1⟩,
  ⟨3600, 0, 1⟩,
  ⟨7200, 0, 1⟩,
  ⟨10800, 0, 1⟩,
  ⟨14400, 0, 1⟩,
  ⟨18000, 0, 1⟩,
  ⟨21600, 0, 1⟩]

/-- A two-point series whose second timestamp precedes its first by two
hours. -/
def backwardsSeries : List DataPoint := [⟨7200, 1, 2⟩, ⟨0, 2, 3⟩]

/-- Unfolding of `calculate_trend` on series of length ≥ 7 with nonzero
reference open: the result is exactly the source's strict threshold
if-chain over `pcShort`. -/
lemma calculate_trend_eq (data : List DataPoint) (b1 b2 : ℚ)
    (h7 : 7 ≤ data.length) (h0 : refOpenShort data ≠ 0) :
    calculate_trend data b1 b2 =
      (if pcShort data > b1 then Except.ok (Trend.BULLISH, pcShort data)
       else if pcShort data < b2 then Except.ok (Trend.BEARISH, pcShort data)
       else Except.ok (Trend.NEUTRAL, pcShort data)) := by
  have h7' : ¬ data.length < 7 := not_lt.mpr h7
  unfold refOpenShort at h0
  simp only [calculate_trend, pcShort, refOpenShort, lastClose]
  rw [if_neg h7', if_neg h0]

/-- Unfolding of `calculate_hwc_trend` on series of length ≥ 7 with nonzero
first open: the result is exactly the source's strict threshold if-chain
over `pcFull`. -/
lemma calculate_hwc_trend_eq (data : List DataPoint) (b1 b2 : ℚ)
    (h7 : 7 ≤ data.length) (h0 : refOpenFull data ≠ 0) :
    calculate_hwc_trend data b1 b2 =
      (if pcFull data > b1 then Except.ok (HWC.BULLISH, pcFull data)
       else if pcFull data < b2 then Except.ok (HWC.BEARISH, pcFull data)
       else Except.ok (HWC.NEUTRAL, pcFull data)) := by
  have h7' : ¬ data.length < 7 := not_lt.mpr h7
  unfold refOpenFull at h0
  simp only [calculate_hwc_trend, pcFull, refOpenFull, lastClose]
  rw [if_neg h7', if_neg h0]

/-- C1: every one of the 27 `(Trend, Trend, HWC)` keys has an explicit
entry in `DECISION_MATRIX`, and no entry is the empty string. -/
theorem decision_matrix_total_nonempty
    (k : Trend × Trend × HWC) :
    DECISION_MATRIX.lookup k ≠ none ∧ DECISION_MATRIX.lookup k ≠ some "" := by
  revert k
  decide

/-- C4: the literal end-to-end scenario. On the sample series, the daily
price classifies `Bullish` and dominance classifies `Bullish` under the
default `(+0.5, -0.5)` short-window thresholds, the weekly series classifies
`Neutral` under the `(+2.0, -2.0)` full-window thresholds, and the matrix
maps `(Bullish, Bullish, Neutral)` to "Moderate BTC buy (Medium risk)". -/
theorem end_to_end_literal_scenario :
    (calculate_trend sample_btc_daily (1/2) (-(1/2))).map Prod.fst = Except.ok Trend.BULLISH ∧
    (calculate_trend sample_btc_dominance (1/2) (-(1/2))).map Prod.fst
      = Except.ok Trend.BULLISH ∧
    (calculate_hwc_trend sample_btc_weekly 2 (-2)).map Prod.fst = Except.ok HWC.NEUTRAL ∧
    DECISION_MATRIX.lookup (Trend.BULLISH, Trend.BULLISH, HWC.NEUTRAL)
      = some "Moderate BTC buy (Medium risk)" := by
  refine ⟨?_, ?_, ?_, by decide⟩
  · rw [calculate_trend_eq sample_btc_daily (1/2) (-(1/2)) (by decide) (by decide)]
    rw [if_pos (by norm_num [pcShort, refOpenShort, lastClose, sample_btc_daily, dp0])]
    rfl
  · rw [calculate_trend_eq sample_btc_dominance (1/2) (-(1/2)) (by decide)
      (by norm_num [refOpenShort, sample_btc_dominance, dp0])]
    rw [if_pos (by norm_num [pcShort, refOpenShort, lastClose, sample_btc_dominance, dp0])]
    rfl
  · rw [calculate_hwc_trend_eq sample_btc_weekly 2 (-2) (by decide) (by decide)]
    rw [if_neg (by norm_num [pcFull, refOpenFull, lastClose, sample_btc_weekly, dp0])]
    rw [if_neg (by norm_num [pcFull, refOpenFull, lastClose, sample_btc_weekly, dp0])]
    rfl

/-- C3 counterexample: with the inverted threshold pair
`(bullishThreshold, bearishThreshold) = (-1, 1)` on a series whose percent
change is exactly 0, the change is strictly below the bearish threshold yet
the classifier returns `Bullish` (the `if`-chain tries the bullish rule
first), so "returns Bearish exactly when percentChange < bearishThreshold"
fails for this threshold pair. -/
theorem classifier_strict_counterexample :
    7 ≤ flatSeries.length ∧
    pcShort flatSeries < 1 ∧
    calculate_trend flatSeries (-1) 1 = Except.ok (Trend.BULLISH, pcShort flatSeries) := by
  have hpc : pcShort flatSeries = 0 := by
    norm_num [pcShort, refOpenShort, lastClose, flatSeries, dp0]
  refine ⟨by decide, by rw [hpc]; norm_num, ?_⟩
  rw [calculate_trend_eq flatSeries (-1) 1 (by decide) (by decide)]
  rw [if_pos (by rw [hpc]; norm_num)]

/-- C3 amended: for threshold pairs with
`bearishThreshold ≤ bullishThreshold` (all the configured defaults), on any
series of ≥ 7 points with nonzero reference opens, both classifiers return
`Bullish` exactly when the percent change is strictly above the bullish
threshold, `Bearish` exactly when it is strictly below the bearish
threshold, and `Neutral` exactly on the remaining closed band — so exact
equality with either threshold classifies as `Neutral`. -/
theorem classifier_strict_thresholds (data : List DataPoint) (b1 b2 : ℚ)
    (hb : b2 ≤ b1) (h7 : 7 ≤ data.length)
    (h0s : refOpenShort data ≠ 0) (h0f : refOpenFull data ≠ 0) :
    (calculate_trend data b1 b2 = Except.ok (Trend.BULLISH, pcShort data)
      ↔ pcShort data > b1) ∧
    (calculate_trend data b1 b2 = Except.ok (Trend.BEARISH, pcShort data)
      ↔ pcShort data < b2) ∧
    (calculate_trend data b1 b2 = Except.ok (Trend.NEUTRAL, pcShort data)
      ↔ pcShort data ≤ b1 ∧ b2 ≤ pcShort data) ∧
    (calculate_hwc_trend data b1 b2 = Except.ok (HWC.BULLISH, pcFull data)
      ↔ pcFull data > b1) ∧
    (calculate_hwc_trend data b1 b2 = Except.ok (HWC.BEARISH, pcFull data)
      ↔ pcFull data < b2) ∧
    (calculate_hwc_trend data b1 b2 = Except.ok (HWC.NEUTRAL, pcFull data)
      ↔ pcFull data ≤ b1 ∧ b2 ≤ pcFull data) := by
  rw [calculate_trend_eq data b1 b2 h7 h0s, calculate_hwc_trend_eq data b1 b2 h7 h0f]
  refine ⟨?_, ?_, ?_, ?_, ?_, ?_⟩ <;>
    split_ifs with h1 h2 <;>
    simp only [Except.ok.injEq, Prod.mk.injEq, and_true, reduceCtorEq, false_and,
      true_iff, false_iff, iff_true, iff_false, gt_iff_lt, not_lt, not_and, not_le] <;>
    first
      | linarith
      | (constructor <;> linarith)
      | (intro hc; linarith)

/-- C3 witness: the amended theorem applied to the daily sample with the
default thresholds. -/
theorem classifier_strict_thresholds_witness :
    ((-(1:ℚ)/2 ≤ 1/2) ∧ 7 ≤ sample_btc_daily.length ∧ refOpenShort sample_btc_daily ≠ 0
      ∧ refOpenFull sample_btc_daily ≠ 0) ∧
    (calculate_trend sample_btc_daily (1/2) (-(1/2))
      = Except.ok (Trend.BULLISH, pcShort sample_btc_daily)
      ↔ pcShort sample_btc_daily > 1/2) :=
  ⟨⟨by norm_num, by decide, by decide, by decide⟩,
    (classifier_strict_thresholds sample_btc_daily (1/2) (-(1/2))
      (by norm_num) (by decide) (by decide) (by decide)).1⟩

/-- C10: the classifiers have no guard on the reference open: with ≥ 7
points and a nonzero reference open both return a result; with a zero
reference open both fail with `ZeroDivisionError`, an error kind outside the
spec's taxonomy. -/
theorem zero_refopen_division (data : List DataPoint) (b1 b2 : ℚ)
    (h7 : 7 ≤ data.length) :
    ¬ specErrorTaxonomy Err.zeroDivisionError ∧
    (refOpenShort data = 0 →
      calculate_trend data b1 b2 = Except.error Err.zeroDivisionError) ∧
    (refOpenShort data ≠ 0 → ∃ r, calculate_trend data b1 b2 = Except.ok r) ∧
    (refOpenFull data = 0 →
      calculate_hwc_trend data b1 b2 = Except.error Err.zeroDivisionError) ∧
    (refOpenFull data ≠ 0 → ∃ r, calculate_hwc_trend data b1 b2 = Except.ok r) := by
  have h7' : ¬ data.length < 7 := not_lt.mpr h7
  refine ⟨by decide, ?_, ?_, ?_, ?_⟩
  · intro h0
    unfold refOpenShort at h0
    simp only [calculate_trend]
    rw [if_neg h7', if_pos h0]
  · intro h0
    rw [calculate_trend_eq data b1 b2 h7 h0]
    split_ifs <;> exact ⟨_, rfl⟩
  · intro h0
    unfold refOpenFull at h0
    simp only [calculate_hwc_trend]
    rw [if_neg h7', if_pos h0]
  · intro h0
    rw [calculate_hwc_trend_eq data b1 b2 h7 h0]
    split_ifs <;> exact ⟨_, rfl⟩

/-- C10 witness: a 7-point series with zero reference open makes
`calculate_trend` fail with `ZeroDivisionError`. -/
theorem zero_refopen_division_witness :
    7 ≤ zeroOpenSeries.length ∧
    calculate_trend zeroOpenSeries 1 (-1) = Except.error Err.zeroDivisionError :=
  ⟨by decide, (zero_refopen_division zeroOpenSeries 1 (-1) (by decide)).2.1 (by decide)⟩

/-- C2: evaluation of `get_confidence_score` showing the alignment bonus of
the claim's formula does not hold. At `(Bullish, Bullish, Bullish)` the
code yields 75, not the claimed clamp(65+20) = 85: the chained comparison
`btc_trend == btc_d_trend == hwc_status` compares a `Trend` member with an
`HWC` member, which is always false across Python enum classes, so only the
`btc_trend == btc_d_trend` pairwise +10 can ever fire. At
`(Bullish, Neutral, Bullish)` the code yields 50, not the claimed
clamp(65+10-15) = 60, because the daily/wave pair is also compared across
classes. The claimed bound `[50, 95]` does hold for every input. -/
theorem confidence_alignment_divergence :
    get_confidence_score Trend.BULLISH Trend.BULLISH HWC.BULLISH = 75 ∧
    get_confidence_score Trend.BULLISH Trend.NEUTRAL HWC.BULLISH = 50 ∧
    (∀ (b d : Trend) (h : HWC),
      50 ≤ get_confidence_score b d h ∧ get_confidence_score b d h ≤ 95) := by
  refine ⟨by decide, by decide, ?_⟩
  decide

/-- The validator never reports `IncompleteData`: it has no minimum-length
check (the parser has one, the validator does not). -/
lemma validate_never_incompleteData (data : List DataPoint) (maxGapHours : ℚ) :
    validate_timestamp_continuity data maxGapHours ≠ Except.error Err.incompleteData := by
  induction data with
  | nil => simp [validate_timestamp_continuity]
  | cons p rest ih =>
    cases rest with
    | nil => simp [validate_timestamp_continuity]
    | cons q rest' =>
      simp only [validate_timestamp_continuity]
      split_ifs with hgap
      · simp
      · exact ih

/-- The source's validator walk agrees with the first-offending-gap
specification. -/
lemma validate_eq_spec (data : List DataPoint) (maxGapHours : ℚ) :
    validate_timestamp_continuity data maxGapHours = validate_spec data maxGapHours := by
  induction data with
  | nil => rfl
  | cons p rest ih =>
    cases rest with
    | nil => rfl
    | cons q rest' =>
      simp only [validate_timestamp_continuity, validate_spec, gaps]
      by_cases hgap : q.ts - p.ts > maxGapHours * 3600
      · simp [hgap]
      · rw [if_neg hgap, ih, validate_spec]
        simp [hgap]

/-- The validator passes exactly when every consecutive gap is at most the
ceiling (in seconds). -/
lemma validate_ok_iff (data : List DataPoint) (maxGapHours : ℚ) :
    validate_timestamp_continuity data maxGapHours = Except.ok () ↔
      ∀ g ∈ gaps data, g ≤ maxGapHours * 3600 := by
  rw [validate_eq_spec data maxGapHours]
  unfold validate_spec
  cases hf : (gaps data).find? (fun g => decide (maxGapHours * 3600 < g)) with
  | none =>
    simp only [true_iff]
    intro g hg
    have := List.find?_eq_none.mp hf g hg
    simpa using this
  | some g =>
    simp only [reduceCtorEq, false_iff, not_forall]
    refine ⟨g, List.mem_of_find?_eq_some hf, ?_⟩
    have := List.find?_some hf
    simp only [decide_eq_true_eq] at this
    linarith

/-- C5 counterexample: a 3-point series fed to the continuity validator
does not raise `IncompleteData`; it passes silently (the validator has no
minimum-length check). -/
theorem min_length_validator_counterexample :
    shortSeries.length < 7 ∧
    validate_timestamp_continuity shortSeries 1 = Except.ok () := by
  refine ⟨by decide, ?_⟩
  norm_num [validate_timestamp_continuity, shortSeries]

/-- C5 amended: any series with fewer than 7 points fed to
`calculate_trend` or `calculate_hwc_trend` raises `IncompleteData`; the
continuity validator performs no minimum-length check and never raises
`IncompleteData` (length < 2 passes trivially, longer series are subject
only to the gap check). -/
theorem min_length_amended (data : List DataPoint) (b1 b2 maxGapHours : ℚ)
    (h : data.length < 7) :
    calculate_trend data b1 b2 = Except.error Err.incompleteData ∧
    calculate_hwc_trend data b1 b2 = Except.error Err.incompleteData ∧
    validate_timestamp_continuity data maxGapHours ≠ Except.error Err.incompleteData := by
  refine ⟨?_, ?_, validate_never_incompleteData data maxGapHours⟩
  · simp only [calculate_trend]
    rw [if_pos h]
  · simp only [calculate_hwc_trend]
    rw [if_pos h]

/-- C5 witness: the amended theorem at the 3-point series. -/
theorem min_length_amended_witness :
    shortSeries.length < 7 ∧
    (calculate_trend shortSeries (1/2) (-(1/2)) = Except.error Err.incompleteData ∧
     calculate_hwc_trend shortSeries (1/2) (-(1/2)) = Except.error Err.incompleteData ∧
     validate_timestamp_continuity shortSeries 1 ≠ Except.error Err.incompleteData) :=
  ⟨by decide, min_length_amended shortSeries (1/2) (-(1/2)) 1 (by decide)⟩

/-- C6: the validator fails with `TimestampDiscontinuity` on exactly the
first consecutive pair whose gap exceeds `maxGapHours` hours (the
refinement to `validate_spec`, whose error carries the first offending
gap), and passes exactly when every consecutive gap is at most the ceiling
— in particular any series of length < 2 passes. The embedding is a pure
function, so the series is never mutated or reordered. -/
theorem gap_detection_iff_first (data : List DataPoint) (maxGapHours : ℚ) :
    validate_timestamp_continuity data maxGapHours = validate_spec data maxGapHours ∧
    (validate_timestamp_continuity data maxGapHours = Except.ok () ↔
      ∀ g ∈ gaps data, g ≤ maxGapHours * 3600) :=
  ⟨validate_eq_spec data maxGapHours, validate_ok_iff data maxGapHours⟩

/-- C7 counterexample: the series whose second timestamp is two hours
EARLIER than its first is accepted by the validator (the gap `-7200` is
not greater than `3600`), so acceptance does not imply non-decreasing
timestamps, and out-of-order series are not rejected before
classification. -/
theorem validator_accepts_decreasing_counterexample :
    validate_timestamp_continuity backwardsSeries 1 = Except.ok () ∧
    (backwardsSeries.getD 1 dp0).ts < (backwardsSeries.getD 0 dp0).ts := by
  constructor
  · norm_num [validate_timestamp_continuity, backwardsSeries]
  · norm_num [backwardsSeries, dp0]

/-- C7 amended: the validator only bounds gaps from above; it never checks
for backwards time. For any nonnegative ceiling, every series whose
consecutive gaps are all ≤ 0 — i.e. whose timestamps are non-increasing,
including strictly decreasing ones — passes validation, so accepted series
need not have non-decreasing timestamps. -/
theorem validator_order_blind_amended (data : List DataPoint) (maxGapHours : ℚ)
    (hH : 0 ≤ maxGapHours) (hdec : ∀ g ∈ gaps data, g ≤ 0) :
    validate_timestamp_continuity data maxGapHours = Except.ok () := by
  rw [validate_ok_iff data maxGapHours]
  intro g hg
  have h1 : g ≤ 0 := hdec g hg
  nlinarith

/-- C7 witness: the amended theorem at the backwards two-point series. -/
theorem validator_order_blind_amended_witness :
    ((0:ℚ) ≤ 1 ∧ ∀ g ∈ gaps backwardsSeries, g ≤ 0) ∧
    validate_timestamp_continuity backwardsSeries 1 = Except.ok () :=
  ⟨⟨by norm_num, by norm_num [gaps, backwardsSeries]⟩,
    validator_order_blind_amended backwardsSeries 1 (by norm_num)
      (by norm_num [gaps, backwardsSeries])⟩

/-- C8: `main` validates all three series with the default 1-hour ceiling.
On the repository's own sample weekly series (24-hour spacing, the spec's
literal scenario) that raises `TimestampDiscontinuity` with a first gap of
86400 seconds = 24.0h, while the 24-hour ceiling the claim describes would
accept it; the 1-hour ceiling does accept the hourly daily and dominance
samples. -/
theorem weekly_ceiling_divergence :
    validate_timestamp_continuity sample_btc_weekly 1
      = Except.error (Err.timestampDiscontinuity 86400) ∧
    validate_timestamp_continuity sample_btc_weekly 24 = Except.ok () ∧
    validate_timestamp_continuity sample_btc_daily 1 = Except.ok () ∧
    validate_timestamp_continuity sample_btc_dominance 1 = Except.ok () := by
  refine ⟨?_, ?_, ?_, ?_⟩ <;>
    norm_num [validate_timestamp_continuity, sample_btc_weekly, sample_btc_daily,
      sample_btc_dominance]

/-- Modelled from the spec: the unified `TrendState` of §3 — the
higher-wave-aware annotator variant is not under `src/`
(`get_confidence_score` there takes only the three `(daily, dominance,
wave)` signals), so its state type is reconstructed from the spec's data
model. -/
inductive TrendState where
  | bullish
  | bearish
  | neutral
deriving DecidableEq, Repr, Fintype

/-- Modelled from the spec: §4.5's confidence score before the final
clamp, without a higher-wave signal — base 65, +20 if all three states are
identical, else +10 if any two are identical, −15 if any state is
`Neutral`. -/
def spec_confidence_pre (daily dominance wave : TrendState) : Int :=
  let c : Int := 65
  let c := if daily = dominance ∧ dominance = wave then c + 20
    else if daily = dominance ∨ daily = wave ∨ dominance = wave then c + 10
    else c
  if daily = TrendState.neutral ∨ dominance = TrendState.neutral ∨ wave = TrendState.neutral
  then c - 15 else c

/-- Modelled from the spec: §4.5's full confidence score of the
higher-wave-aware annotator variant (missing from `src/`), written as the
spec's bullet sequence — base 65; +20 all aligned, else +10 for any
pairwise match; −15 for any `Neutral`; if a higher-wave signal is supplied,
+5 on match with the wave state else −10; finally clamp to `[50, 95]`. -/
def spec_confidence_score (daily dominance wave : TrendState)
    (higherWave : Option TrendState) : Int :=
  let c : Int := 65
  let c := if daily = dominance ∧ dominance = wave then c + 20
    else if daily = dominance ∨ daily = wave ∨ dominance = wave then c + 10
    else c
  let c := if daily = TrendState.neutral ∨ dominance = TrendState.neutral
      ∨ wave = TrendState.neutral then c - 15 else c
  let c := match higherWave with
    | some hw => if hw = wave then c + 5 else c - 10
    | none => c
  max 50 (min 95 c)

/-- C9 (on the spec model): supplying a higher-wave signal adjusts the
pre-clamp confidence by exactly +5 when its state matches the wave state
and by −10 otherwise, and the clamp to `[50, 95]` is applied after that
adjustment; with no higher-wave signal the clamp applies to the unadjusted
sum. -/
theorem higher_wave_adjustment (daily dominance wave hw : TrendState) :
    spec_confidence_score daily dominance wave (some hw)
      = max 50 (min 95 (spec_confidence_pre daily dominance wave
          + (if hw = wave then 5 else -10))) ∧
    spec_confidence_score daily dominance wave none
      = max 50 (min 95 (spec_confidence_pre daily dominance wave)) := by
  revert daily dominance wave hw
  decide
